import Mathlib

/-!
Verification of the strategy-engine core (risk calculator/manager, arbitrage
detector/executor, grid calculator/manager) against its natural-language
specification.  Python code is shallowly embedded: Python floats are modelled
as exact rationals, fallible code returns `Except String`, mutation of object
state is explicit state passing, and `try/except` blocks become branches that
produce the error value the exception handler would have returned.

Modelling conventions, justified from the source:

* Python raises `ZeroDivisionError` for `float / 0.0`; the embeddings branch
  on a zero denominator wherever the source can divide by zero inside a
  `try` block.
* A pandas `Series`/`DataFrame` used in boolean context raises `ValueError`
  ("The truth value of a Series is ambiguous") unconditionally, whatever its
  length; `NDFrame.__bool__` raises with no length check.
* `np.round(x, 2)` rounds half to even; `int(x)` truncates toward zero;
  `np.clip(x, lo, hi)` is `min(hi, max(lo, x))`.
* Error-message strings follow the Python messages, with quotes and braces
  dropped.
-/

/-- Round-half-to-even on rationals, the rounding used by `np.round`. -/
def roundHalfEven (x : ℚ) : ℤ :=
  let f : ℤ := ⌊x⌋
  let frac : ℚ := x - f
  if frac < 1/2 then f
  else if frac > 1/2 then f + 1
  else if f % 2 = 0 then f else f + 1

/-- Model of `np.round(x, decimals=2)`. -/
def round2 (x : ℚ) : ℚ := (roundHalfEven (x * 100) : ℚ) / 100

/-- Model of Python `int(x)` on a float: truncation toward zero. -/
def pyInt (x : ℚ) : ℤ := if 0 ≤ x then ⌊x⌋ else ⌈x⌉

/-- Model of `np.clip(x, lo, hi)`. -/
def npClip (x lo hi : ℚ) : ℚ := min hi (max lo x)

/-- Model of `np.cumsum`: running partial sums starting from `acc`. -/
def cumsumFrom (acc : ℚ) : List ℚ → List ℚ
  | [] => []
  | x :: xs => (acc + x) :: cumsumFrom (acc + x) xs

namespace ArbitrageDetector

/-- Embedding of `ArbitrageDetector.calculate_price_difference` (detector.py
lines 63-86).  Raises `ValueError` for a non-positive price, otherwise
returns `|price_b - price_a| / mean(price_a, price_b) * 10000` rounded to two
decimals (basis points). -/
def calculate_price_difference (price_a price_b : ℚ) : Except String ℚ :=
  if price_a ≤ 0 ∨ price_b ≤ 0 then
    .error "Invalid price values"
  else
    let diff := |price_b - price_a|
    let avg_price := (price_a + price_b) / 2
    .ok (round2 (diff / avg_price * 10000))

/-- Order book: bid and ask levels as (price, size) pairs. -/
structure OrderBook where
  bids : List (ℚ × ℚ)
  asks : List (ℚ × ℚ)
  deriving DecidableEq

/-- Embedding of `ArbitrageDetector.validate_liquidity` (detector.py lines
88-124).  An empty side makes the numpy 2-d indexing raise, which the
`except` clause turns into `False`; a zero first price makes the impact
division raise, likewise `False`. -/
def validate_liquidity (ob : OrderBook) (required_volume : ℚ) : Bool :=
  match ob.bids, ob.asks with
  | [], _ => false
  | _, [] => false
  | b0 :: brest, a0 :: arest =>
    let cum_bid := cumsumFrom 0 ((b0 :: brest).map Prod.snd)
    let cum_ask := cumsumFrom 0 ((a0 :: arest).map Prod.snd)
    let has_bid := cum_bid.any (fun v => required_volume ≤ v)
    let has_ask := cum_ask.any (fun v => required_volume ≤ v)
    if has_bid ∧ has_ask then
      if b0.1 = 0 ∨ a0.1 = 0 then false
      else
        let bLast := ((b0 :: brest).getLast (by simp)).1
        let aLast := ((a0 :: arest).getLast (by simp)).1
        let bid_impact := |b0.1 - bLast| / b0.1
        let ask_impact := |aLast - a0.1| / a0.1
        decide (bid_impact < 1/100 ∧ ask_impact < 1/100)
    else false

end ArbitrageDetector

namespace RiskCalculator

/-- Positions of a portfolio, as the association list pair -> value that the
risk paths read (`pos['value']` is the only field they touch). -/
abbrev Positions := List (String × ℚ)

/-- Risk limits dictionary of `RiskCalculator.__init__`. -/
structure RiskLimits where
  max_position_size : ℚ
  min_position_size : ℚ
  max_concentration : ℚ
  correlation_limit : ℚ
  deriving DecidableEq

/-- Default risk limits (calculator.py lines 48-53). -/
def defaultRiskLimits : RiskLimits :=
  { max_position_size := 5000, min_position_size := 100,
    max_concentration := 1/4, correlation_limit := 7/10 }

/-- Trade parameters; `pair` is an `Option` because one caller
(`GridCalculator.optimize_grid_parameters`) passes a dict without the
`pair` key, which raises `KeyError` where the key is read. -/
structure Trade where
  pair : Option String
  size : ℚ
  price : ℚ
  deriving DecidableEq

/-- Number of rows of `market_data.pct_change().dropna()` for a numeric
frame, counting consecutive row pairs.  A `pct_change` row is NaN (hence
dropped) in some column exactly when that column has two consecutive zeros:
`(0-0)/0` is `nan`, while `x/0` for `x ≠ 0` is an infinity, which `dropna`
keeps.  Row 0 of `pct_change` is all-NaN and dropped whenever the frame has
at least one column. -/
def keptPairs : List (List ℚ) → ℕ
  | [] => 0
  | [_] => 0
  | prev :: cur :: rest =>
    (if (List.zip prev cur).any (fun pc => decide (pc.1 = 0 ∧ pc.2 = 0)) then 0 else 1)
      + keptPairs (cur :: rest)

/-- Row count of the returns frame derived from `market_data`; a frame with
no columns produces no NaN at all, so `dropna` keeps every row. -/
def returnsLen (market_data : List (List ℚ)) : ℕ :=
  match market_data with
  | [] => 0
  | r0 :: rest => if r0.isEmpty then (r0 :: rest).length else keptPairs (r0 :: rest)

/-- Message with which `calculate_value_at_risk` fails for a given lookback
period and returns-row count (see `calculate_value_at_risk`). -/
def varFailureMsg (lookback_period numReturnRows : ℕ) : String :=
  if numReturnRows < lookback_period then
    "Error calculating VaR: Insufficient historical data for VaR calculation"
  else
    "Error calculating VaR: The truth value of a Series is ambiguous. Use a.empty, a.bool(), a.item(), a.any() or a.all()."

/-- Per-horizon VaR metrics; never produced, see `calculate_value_at_risk`. -/
structure VarMetrics where
  var_1d : ℚ
  var_5d : ℚ
  var_10d : ℚ
  deriving DecidableEq

/-- Embedding of `RiskCalculator.calculate_value_at_risk` (calculator.py
lines 67-122) as invoked on a pandas DataFrame of returns.  On a DataFrame
the method can never succeed: with fewer than `lookback_period` rows it
raises for insufficient data (line 86), and otherwise `current_vol` (line
89) and `historical_vol` (line 90) are per-column Series, so the conditional
expression `... if historical_vol != 0 else 1` at line 91 calls
`Series.__bool__`, which raises unconditionally; the except clause at line
121 re-raises both as `ValueError`. -/
def calculate_value_at_risk (lookback_period numReturnRows : ℕ) :
    Except String VarMetrics :=
  .error (varFailureMsg lookback_period numReturnRows)

/-- Portfolio risk report; never produced, see `calculate_portfolio_risk`. -/
structure RiskReport where
  concentration : ℚ
  correlation_rows : List (List ℚ)
  deriving DecidableEq

/-- Embedding of `RiskCalculator.calculate_portfolio_risk` (calculator.py
lines 182-239).  Every control path raises, and the except clause at line
238 re-raises as `ValueError`:

* empty positions: the `max()` over an empty generator at line 206 raises;
* a zero portfolio value: the float division at line 206 raises;
* otherwise, the first stress scenario (line 213) or, with no scenarios,
  the `var_metrics` entry of the result (line 225) calls
  `calculate_value_at_risk` on a DataFrame, which always raises (the row
  count of the shocked returns equals that of the returns frame).

The correlation matrix and Sharpe/drawdown lines (203, 221-222) never
raise and do not affect the outcome. -/
def calculate_portfolio_risk (lookback_period : ℕ) (positions : Positions)
    (market_data : List (List ℚ)) (_scens : List (String × ℚ)) :
    Except String RiskReport :=
  let portfolio_value := (positions.map Prod.snd).sum
  if positions.isEmpty then
    .error "Error calculating portfolio risk: max() arg is an empty sequence"
  else if portfolio_value = 0 then
    .error "Error calculating portfolio risk: float division by zero"
  else
    .error ("Error calculating portfolio risk: "
      ++ varFailureMsg lookback_period (returnsLen market_data))

/-- Diagnostics dict returned by `validate_trade`: either the stringified
exception under the `error` key, or the scored validation results. -/
inductive Detail where
  | err (msg : String)
  | scored (risk_score : ℚ) (position_size_ok concentration_ok correlation_ok : Bool)
  deriving DecidableEq

/-- Mutation performed at calculator.py lines 269-274: the trade value is
added to the existing position, or a fresh position dict is inserted.
`portfolio_state.copy()` at line 266 is a shallow copy, so this write goes
through to the caller's positions dict. -/
def addTradeValue (positions : Positions) (pair : String) (trade_value : ℚ) :
    Positions :=
  if positions.any (fun p => p.1 == pair) then
    positions.map (fun p => if p.1 == pair then (p.1, p.2 + trade_value) else p)
  else
    positions ++ [(pair, trade_value)]

/-- Embedding of `RiskCalculator.validate_trade` (calculator.py lines
241-318).  The returned `Positions` is the caller's positions dict after the
call (mutated through the shallow copy if the simulation at lines 266-274 is
reached).  The pre-trade `calculate_portfolio_risk` call always raises, so
in this program only the first branch is reachable; the later branches are
embedded for fidelity, including the `TypeError` at line 288, where each row
of `correlation_matrix` (a list) is compared with the float limit. -/
def validate_trade (limits : RiskLimits) (lookback_period : ℕ) (trade : Trade)
    (positions : Positions) (market_data : List (List ℚ))
    (scens : List (String × ℚ)) : (Bool × Detail) × Positions :=
  match calculate_portfolio_risk lookback_period positions market_data scens with
  | .error e => ((false, .err e), positions)
  | .ok _pre_trade_risk =>
    match trade.pair with
    | none => ((false, .err "pair"), positions)
    | some pr =>
      let trade_value := trade.size * trade.price
      let positions2 := addTradeValue positions pr trade_value
      match calculate_portfolio_risk lookback_period positions2 market_data scens with
      | .error e => ((false, .err e), positions2)
      | .ok post_trade_risk =>
        if post_trade_risk.correlation_rows.isEmpty then
          let position_size_ok := decide (trade_value ≤ limits.max_position_size)
          let concentration_ok :=
            decide (post_trade_risk.concentration ≤ limits.max_concentration)
          let correlation_ok := true
          let risk_score := (if position_size_ok then (3:ℚ)/10 else 0)
            + (if concentration_ok then (3:ℚ)/10 else 0)
            + (if correlation_ok then (4:ℚ)/10 else 0)
          ((decide (risk_score ≥ 8/10),
            .scored risk_score position_size_ok concentration_ok correlation_ok),
            positions2)
        else
          ((false, .err "not supported between instances of list and float"),
            positions2)

/-- Modelled from the spec (claim C2 wording): the weighted validation
score - 0.3 if the trade value is within `max_position_size`, 0.3 if the
post-trade concentration is within `max_concentration`, 0.4 if all pairwise
correlations are within `correlation_limit`; the spec approves at 0.8. -/
def spec_risk_score (limits : RiskLimits) (trade_value post_concentration : ℚ)
    (pairwise_correlations : List ℚ) : ℚ :=
  (if trade_value ≤ limits.max_position_size then (3:ℚ)/10 else 0)
  + (if post_concentration ≤ limits.max_concentration then (3:ℚ)/10 else 0)
  + (if pairwise_correlations.all (fun c => decide (c ≤ limits.correlation_limit))
      then (4:ℚ)/10 else 0)

end RiskCalculator

namespace RiskManager

/-- Live state of a `RiskManager` instance: the emergency flag, the
portfolio positions, the market-data frame, and the calculator
configuration fixed at construction. -/
structure ManagerState where
  emergency_stop : Bool
  positions : RiskCalculator.Positions
  market_data : List (List ℚ)
  limits : RiskCalculator.RiskLimits
  lookback_period : ℕ
  deriving DecidableEq

/-- Embedding of `RiskManager.validate_trade` (manager.py lines 168-210).
With the emergency flag set, lines 178-179 return the rejection before the
try block, touching no state and never calling the calculator.  Otherwise
the calculator runs (threading its positions effect through), after which
line 194 calls the undefined method `_assess_timing_risk`; the resulting
`AttributeError` is caught at line 208 and surfaces as a rejection. -/
def validate_trade (s : ManagerState) (trade : RiskCalculator.Trade) :
    (Bool × RiskCalculator.Detail) × ManagerState :=
  if s.emergency_stop then
    ((false, .err "Trading suspended - Emergency stop active"), s)
  else
    let r := RiskCalculator.validate_trade s.limits s.lookback_period trade
      s.positions s.market_data [("normal", 1), ("stress", 3/2)]
    ((false, .err "RiskManager object has no attribute _assess_timing_risk"),
      { s with positions := r.2 })

/-- Embedding of `RiskManager.emergency_shutdown` (manager.py lines
265-301).  Line 277 sets `emergency_stop = True` first; line 283 then calls
the undefined method `_cancel_all_orders`, so the body raises
`AttributeError`, the except clause at line 299 logs and returns `False`,
and the flag stays set.  The trigger event is only logged.  The function is
total: the method never propagates an exception. -/
def emergency_shutdown (s : ManagerState) (_trigger_event : String) :
    Bool × ManagerState :=
  (false, { s with emergency_stop := true })

end RiskManager

namespace ArbitrageExecutor

/-- One row of the executor's market-data frame. -/
structure MarketRow where
  dex : String
  pair : String
  price : ℚ
  ob : ArbitrageDetector.OrderBook
  deriving DecidableEq

/-- An arbitrage opportunity / execution-params dict.  `size` is an
`Option` because the dicts built by the detector carry no `size` key and
the executor reads it with `.get('size', 0)`. -/
structure Opportunity where
  pair : String
  dex_buy : String
  dex_sell : String
  size : Option ℚ
  deriving DecidableEq

/-- First row of `market_data[(market_data.dex == d) & (market_data.pair == p)]`,
i.e. `.iloc[0]` on the filtered frame; `none` models the `IndexError`
raised on an empty selection. -/
def firstRow (md : List MarketRow) (d p : String) : Option MarketRow :=
  (md.filter (fun r => r.dex == d && r.pair == p)).head?

/-- A Python float that is either finite or `float('inf')`. -/
inductive SlipVal where
  | finite (bps : ℚ)
  | posInf
  deriving DecidableEq

/-- Embedding of `ArbitrageExecutor._calculate_slippage` (executor.py lines
289-328).  An empty selection returns `float('inf')` (line 306); a
non-positive trade size returns `0.0` (line 312); an empty ask book makes
the numpy 2-d indexing at line 315 raise, and a zero best ask makes line
323 raise ZeroDivisionError, both caught at line 327 and turned into
`float('inf')`.  Otherwise the execution price is
`sum(price_i * min(trade_size, cumvol_i)) / trade_size` over the ask
levels, compared with the best ask in basis points. -/
def calculate_slippage (md : List MarketRow) (dex_buy pair : String)
    (size : Option ℚ) : SlipVal :=
  match firstRow md dex_buy pair with
  | none => .posInf
  | some r =>
    let trade_size := size.getD 0
    if trade_size ≤ 0 then .finite 0
    else
      match r.ob.asks with
      | [] => .posInf
      | (p0, s0) :: rest =>
        if p0 = 0 then .posInf
        else
          let asks := (p0, s0) :: rest
          let cum := cumsumFrom 0 (asks.map Prod.snd)
          let execution_price :=
            (List.zipWith (fun p c => p * min trade_size c)
              (asks.map Prod.fst) cum).sum / trade_size
          .finite ((execution_price - p0) / p0 * 10000)

/-- Validation metrics dict of `validate_execution`: the four gate booleans,
or the stringified exception of the except path. -/
inductive ExecCheck where
  | metrics (price_ok slip_ok liq_ok risk_ok : Bool)
  | err (msg : String)
  deriving DecidableEq

/-- Embedding of `ArbitrageExecutor.validate_execution` (executor.py lines
157-214).  The portfolio-risk gate at lines 204-208 reads
`self.base_strategy.calculate_portfolio_risk()['var']`; the executor's
internal `BaseStrategy` instance keeps `market_data = None` and an empty
positions dict for its whole life (nothing in the repository assigns them),
so that call returns the initial metrics dict with `var = None` (base.py
lines 136-137) and the gate `var is not None and var <= max_drawdown` is
`False` on every call; hence `all(validation_metrics.values())` is `False`
on every call. -/
def validate_execution (md : List MarketRow) (opp : Opportunity) :
    Bool × ExecCheck :=
  match firstRow md opp.dex_buy opp.pair, firstRow md opp.dex_sell opp.pair with
  | none, _ => (false, .err "single positional indexer is out-of-bounds")
  | some _, none => (false, .err "single positional indexer is out-of-bounds")
  | some rb, some rs =>
    match ArbitrageDetector.calculate_price_difference rb.price rs.price with
    | .error e => (false, .err e)
    | .ok current_price_diff =>
      let price_ok := decide (current_price_diff ≥ 15)
      let slip_ok :=
        match calculate_slippage md opp.dex_buy opp.pair opp.size with
        | .posInf => false
        | .finite b => decide (b ≤ 50)
      let liq_ok :=
        ArbitrageDetector.validate_liquidity rb.ob (opp.size.getD 0) &&
        ArbitrageDetector.validate_liquidity rs.ob (opp.size.getD 0)
      let risk_ok := false
      (price_ok && slip_ok && liq_ok && risk_ok,
        .metrics price_ok slip_ok liq_ok risk_ok)

/-- One step of an execution path. -/
structure PathStep where
  dex : String
  size : ℚ
  price : ℚ
  isBuy : Bool
  deriving DecidableEq

/-- Embedding of `ArbitrageExecutor.calculate_execution_path` (executor.py
lines 216-268).  A missing market row or an empty book makes the lookup or
the numpy 2-d indexing raise, and ask/bid depth lists of different lengths
make `np.minimum` raise on shape mismatch; all are caught at line 267,
returning the empty path. -/
def calculate_execution_path (md : List MarketRow) (opp : Opportunity) :
    List PathStep :=
  match firstRow md opp.dex_buy opp.pair, firstRow md opp.dex_sell opp.pair with
  | some rb, some rs =>
    match rb.ob.asks, rs.ob.bids with
    | a0 :: arest, b0 :: brest =>
      if (a0 :: arest).length ≠ (b0 :: brest).length then []
      else
        let cumBuy := cumsumFrom 0 ((a0 :: arest).map Prod.snd)
        let cumSell := cumsumFrom 0 ((b0 :: brest).map Prod.snd)
        match List.zipWith min cumBuy cumSell with
        | [] => []
        | m :: ms =>
          let max_buy_size := ms.foldl max m
          if 0 < max_buy_size then
            [{ dex := opp.dex_buy, size := max_buy_size, price := a0.1, isBuy := true },
             { dex := opp.dex_sell, size := max_buy_size, price := b0.1, isBuy := false }]
          else []
    | _, _ => []
  | _, _ => []

end ArbitrageExecutor

namespace BaseStrategy

/-- Embedding of `BaseStrategy.validate_trade` (base.py lines 171-224) for
an instance whose `market_data` is `None` (the slippage block at lines
196-203 is skipped).  A zero equity makes the division at line 188 raise
ZeroDivisionError, caught at line 223.  Returns the validation result and,
on the exception path, the error message. -/
def validate_trade (equity : ℚ) (positions : List (String × ℚ))
    (min_bps max_bps : ℚ) (pair : String) (size price : ℚ) :
    Bool × Option String :=
  if equity = 0 then (false, some "float division by zero")
  else
    let trade_value := size * price
    let position_size_bps := trade_value / equity * 10000
    let size_ok := ¬(position_size_bps < min_bps ∨ max_bps < position_size_bps)
    let new_position_value := trade_value +
      (((positions.find? (fun p => p.1 == pair)).map Prod.snd).getD 0)
    let concentration := new_position_value / equity
    let conc_ok := ¬(1/2 < concentration)
    (decide size_ok && decide conc_ok, none)

end BaseStrategy

namespace ArbitrageExecutor

/-- The executor's rolling execution statistics dict. -/
structure ExecStats where
  total_executions : ℕ
  successful_executions : ℕ
  failed_executions : ℕ
  average_execution_time : ℚ
  total_profit_usdc : ℚ
  mev_optimization_savings : ℚ
  deriving DecidableEq

/-- Statistics at construction (executor.py lines 44-51). -/
def initStats : ExecStats := ⟨0, 0, 0, 0, 0, 0⟩

/-- Embedding of `ArbitrageExecutor._update_execution_stats` (executor.py
lines 330-345). -/
def update_execution_stats (st : ExecStats) (success : Bool)
    (profit mev execution_time : ℚ) : ExecStats :=
  let total := st.total_executions + 1
  let st1 :=
    if success then
      { st with
        total_executions := total
        successful_executions := st.successful_executions + 1
        total_profit_usdc := st.total_profit_usdc + profit
        mev_optimization_savings := st.mev_optimization_savings + mev }
    else
      { st with
        total_executions := total
        failed_executions := st.failed_executions + 1 }
  { st1 with average_execution_time :=
      (st1.average_execution_time * ((total : ℚ) - 1) + execution_time) / (total : ℚ) }

/-- Result dict of `execute_opportunity`. -/
structure ExecResult where
  success : Bool
  profit_usdc : ℚ
  mev_savings : ℚ
  errors : List String
  deriving DecidableEq

/-- Mutable state of an `ArbitrageExecutor` instance touched by
`execute_opportunity`: the market-data frame and the statistics. -/
structure ExecutorState where
  market_data : List MarketRow
  stats : ExecStats
  deriving DecidableEq

/-- Result of the `_execute_trade` placeholder (executor.py lines 270-287):
deterministic success with zero realized profit and zero MEV savings. -/
def execute_trade_stub : Bool × ℚ × ℚ := (true, 0, 0)

/-- Embedding of `ArbitrageExecutor.execute_opportunity` (executor.py lines
62-155).  `execution_time_ms` is the wall-clock duration of the call, an
environment input.  The three early returns at lines 87, 93 and 109 skip
`_update_execution_stats`; only control flow that reaches the retry loop
updates the statistics (line 149).  The per-leg risk validation at line 106
uses the executor's internal base strategy, whose equity is the initial
`0.0`, so every leg fails validation.  In the (here unreachable) retry
loop, `_execute_trade` is the deterministic placeholder, so the first
attempt returns all-success. -/
def execute_opportunity (s : ExecutorState) (opp : Opportunity)
    (execution_time_ms : ℚ) : ExecResult × ExecutorState :=
  let r0 : ExecResult := ⟨false, 0, 0, []⟩
  let v := validate_execution s.market_data opp
  if ¬v.1 then
    ({ r0 with errors := ["Validation failed"] }, s)
  else
    match calculate_execution_path s.market_data opp with
    | [] => ({ r0 with errors := ["Failed to calculate execution path"] }, s)
    | step :: steps =>
      let legFails := (step :: steps).any (fun st =>
        ¬(BaseStrategy.validate_trade 0 [] 100 5000 opp.pair st.size st.price).1)
      if legFails then
        ({ r0 with errors := ["Trade validation failed"] }, s)
      else
        let trade_results := (step :: steps).map (fun _ => execute_trade_stub)
        let all_success := trade_results.all (fun t => t.1)
        let result :=
          if all_success then
            { r0 with
              success := true
              profit_usdc := (trade_results.map (fun t => t.2.1)).sum
              mev_savings := (trade_results.map (fun t => t.2.2)).sum }
          else r0
        let stats2 := update_execution_stats s.stats result.success
          result.profit_usdc result.mev_savings execution_time_ms
        (result, { s with stats := stats2 })

end ArbitrageExecutor

namespace GridStrategy

/-- Grid parameters produced by the grid calculator and consumed by
`_initialize_grid_levels`. -/
structure GridParams where
  grid_levels : ℕ
  grid_spacing : ℚ
  position_size : ℚ
  deriving DecidableEq

/-- One grid level dict. -/
structure GridLevel where
  price : ℚ
  size : ℚ
  isBuy : Bool
  status : String
  deriving DecidableEq

/-- Indices iterated by `range(-num_levels // 2, num_levels // 2 + 1)` at
grid/manager.py line 331 (`//` is Python floor division, and unary minus
binds tighter, so the lower bound is `(-num_levels) // 2`). -/
def levelIndices (num_levels : ℕ) : List ℤ :=
  let lo : ℤ := Int.fdiv (-(num_levels : ℤ)) 2
  let hi : ℤ := Int.fdiv (num_levels : ℤ) 2 + 1
  (List.range (hi - lo).toNat).map (fun k => lo + Int.ofNat k)

/-- Embedding of `GridStrategyManager._initialize_grid_levels`
(grid/manager.py lines 322-340): one level per index, at price
`current_price * (1 + i * spacing)`, buy side for `i < 0`. -/
def initialize_grid_levels (params : GridParams) (current_price : ℚ) :
    List GridLevel :=
  (levelIndices params.grid_levels).map (fun (i : ℤ) =>
    { price := current_price * (1 + (i : ℚ) * params.grid_spacing)
      size := params.position_size
      isBuy := decide (i < 0)
      status := "pending" })

/-- Stored grid state per pair (the fields `rebalance_grid` touches). -/
structure GridState where
  levels : List GridLevel
  params : GridParams
  deriving DecidableEq

/-- Mutable state of a `GridStrategyManager` instance touched by
`rebalance_grid`. -/
structure GridMgrState where
  active_grids : List (String × GridState)
  rebalance_failures : ℕ
  deriving DecidableEq

/-- Embedding of `GridStrategyManager.rebalance_grid` (grid/manager.py
lines 247-320).  With no active grid for the pair, the body raises
`ValueError` at line 263; otherwise line 267 calls the undefined method
`_get_market_data` and raises `AttributeError` before
`optimize_grid_parameters` is ever invoked.  Both exceptions hit the
handler at line 317, which increments `rebalance_failures` and re-raises,
so no call can ever succeed, and the stored levels are never replaced. -/
def rebalance_grid (s : GridMgrState) (trading_pair : String)
    (_current_price : ℚ) : Except String Unit × GridMgrState :=
  let msg :=
    if (s.active_grids.find? (fun g => g.1 == trading_pair)).isNone then
      "No active grid for " ++ trading_pair
    else
      "GridStrategyManager object has no attribute _get_market_data"
  (.error msg, { s with rebalance_failures := s.rebalance_failures + 1 })

end GridStrategy

namespace GridCalculator

/-- Volatility history after the update at grid/calculator.py lines
123-124: `np.roll(history, -1)` moves the head to the back and the last
slot is then overwritten with the current volatility, discarding the
oldest entry. -/
def historyAfter (prior : List ℚ) (current_vol : ℚ) : List ℚ :=
  prior.drop 1 ++ [current_vol]

/-- Embedding of the grid-level computation of
`GridCalculator.optimize_grid_parameters`, grid/calculator.py lines
136-143: `volatility_factor = np.mean(self.volatility_history) /
current_volatility` over the updated history, `base_levels = (20 + 3) // 2
= 11`, and `grid_levels = int(np.clip(base_levels * volatility_factor, 3,
20))` - `int(...)` truncates toward zero.  The operands are numpy
float64 scalars, so a zero current volatility yields an infinite factor
(clipped to the bounds) when the mean is nonzero, and `nan` when the mean
is also zero, which makes `int(nan)` raise `ValueError`. -/
def grid_levels_calc (prior : List ℚ) (current_vol : ℚ) : Except String ℤ :=
  let hist := historyAfter prior current_vol
  if current_vol = 0 then
    if 0 < hist.sum then .ok 20
    else if hist.sum < 0 then .ok 3
    else .error "cannot convert float NaN to integer"
  else
    let volatility_factor := hist.sum / (hist.length : ℚ) / current_vol
    .ok (pyInt (npClip (11 * volatility_factor) 3 20))

/-- Modelled from the spec (claim C10 wording): `grid_levels =
clamp(round(base_level_count * (avg_historical_vol / current_vol)),
MIN_GRID_LEVELS, MAX_GRID_LEVELS)` with base level count 11 and bounds 3
and 20. -/
def spec_grid_levels (avg_historical_vol current_vol : ℚ) : ℤ :=
  min 20 (max 3 (round (11 * (avg_historical_vol / current_vol))))

end GridCalculator

/-! Concrete fixtures used by the evaluation theorems below. -/

/-- Market-data fixture: twenty rows of one constant positive price column,
enough history for the floored minimum lookback period. -/
def mdFixture : List (List ℚ) := List.replicate 20 [1]

/-- Portfolio fixture: five equally sized positions. -/
def positionsFixture : RiskCalculator.Positions :=
  [("SOL/USDC", 100), ("ORCA/USDC", 100), ("RAY/USDC", 100),
    ("BONK/USDC", 100), ("JUP/USDC", 100)]

/-- Manager-state fixture with the emergency flag set. -/
def managerFixture : RiskManager.ManagerState :=
  { emergency_stop := true
    positions := []
    market_data := []
    limits := RiskCalculator.defaultRiskLimits
    lookback_period := 30 }

/-- Executor market-row fixture with a one-level book. -/
def rowFixture : ArbitrageExecutor.MarketRow :=
  { dex := "orca"
    pair := "SOL/USDC"
    price := 100
    ob := { bids := [(100, 5)], asks := [(101, 5)] } }

/-- Executor market-row fixture with a two-level ask book. -/
def row2Fixture : ArbitrageExecutor.MarketRow :=
  { dex := "orca"
    pair := "SOL/USDC"
    price := 100
    ob := { bids := [(100, 5)], asks := [(100, 1), (102, 9)] } }

/-- Volatility-history fixture: twenty-three zero entries and one spike. -/
def priorFixture : List ℚ := List.replicate 23 0 ++ [413]

/-! Helper lemmas shared by the claim theorems. -/

/-- Every call of `calculate_portfolio_risk` fails: each control path of
the source raises (see the definition's doc comment). -/
theorem calculate_portfolio_risk_always_fails (lookback : ℕ)
    (positions : RiskCalculator.Positions) (md : List (List ℚ))
    (scens : List (String × ℚ)) :
    ∃ e, RiskCalculator.calculate_portfolio_risk lookback positions md scens
      = .error e := by
  unfold RiskCalculator.calculate_portfolio_risk
  dsimp only
  split
  · exact ⟨_, rfl⟩
  · split
    · exact ⟨_, rfl⟩
    · exact ⟨_, rfl⟩

/-- The four-gate conjunction of `validate_execution` is false on every
call: the portfolio-risk gate can never pass (the executor's base-strategy
VaR stays `None`). -/
theorem validate_execution_always_false
    (md : List ArbitrageExecutor.MarketRow)
    (opp : ArbitrageExecutor.Opportunity) :
    (ArbitrageExecutor.validate_execution md opp).1 = false := by
  unfold ArbitrageExecutor.validate_execution
  split
  · rfl
  · rfl
  · split
    · rfl
    · simp

/-- The generated grid always has one more level than `grid_levels`. -/
theorem levelIndices_length (n : ℕ) :
    (GridStrategy.levelIndices n).length = n + 1 := by
  unfold GridStrategy.levelIndices
  simp only [List.length_map, List.length_range,
    Int.fdiv_eq_ediv (-(n : ℤ)) (by norm_num : (0:ℤ) ≤ 2),
    Int.fdiv_eq_ediv (n : ℤ) (by norm_num : (0:ℤ) ≤ 2)]
  omega

/-! Claim theorems. -/

/-- C1: for every trade, portfolio state, market-data frame and risk
scenarios, `RiskCalculator.validate_trade` leaves the caller's positions
unchanged: after the call every position's value equals its value before
the call.  (The pre-trade portfolio-risk computation fails on every input,
so the post-trade simulation - whose shallow-copy write would reach the
caller's dict - is never executed, and the rejection is returned with the
positions untouched.) -/
theorem validate_trade_read_only (limits : RiskCalculator.RiskLimits)
    (lookback : ℕ) (trade : RiskCalculator.Trade)
    (positions : RiskCalculator.Positions) (md : List (List ℚ))
    (scens : List (String × ℚ)) :
    (RiskCalculator.validate_trade limits lookback trade positions md scens).2
      = positions := by
  obtain ⟨e, he⟩ :=
    calculate_portfolio_risk_always_fails lookback positions md scens
  unfold RiskCalculator.validate_trade
  rw [he]

/-- C2 (code bug): at a concrete diversified portfolio, a tiny trade and
ample market data, the three gates of the spec all pass, so the spec-side
weighted score is 1.0 >= 0.8 and the spec approves; yet
`RiskCalculator.validate_trade` returns the rejection `(False, error dict)`:
its weighted-score block (weights 0.3/0.3/0.4, threshold 0.8) is
unreachable, because the pre-trade portfolio-risk computation fails on
every input. -/
theorem validate_trade_scoring_unreachable :
    RiskCalculator.spec_risk_score RiskCalculator.defaultRiskLimits (1/100)
      (10001/50001) [1/10] = 1
    ∧ ((8 : ℚ)/10 ≤ 1)
    ∧ RiskCalculator.validate_trade RiskCalculator.defaultRiskLimits 5
        { pair := some "SOL/USDC", size := 1/100, price := 1 }
        positionsFixture mdFixture [("base", 1)]
      = ((false, .err ("Error calculating portfolio risk: "
            ++ RiskCalculator.varFailureMsg 5 19)), positionsFixture) := by
  refine ⟨by norm_num [RiskCalculator.spec_risk_score,
    RiskCalculator.defaultRiskLimits], by norm_num, ?_⟩
  have hrisk : RiskCalculator.calculate_portfolio_risk 5 positionsFixture
      mdFixture [("base", 1)]
      = .error ("Error calculating portfolio risk: "
          ++ RiskCalculator.varFailureMsg 5 19) := by
    unfold RiskCalculator.calculate_portfolio_risk
    norm_num [positionsFixture]
    rw [show RiskCalculator.returnsLen mdFixture = 19 from rfl]
  unfold RiskCalculator.validate_trade
  rw [hrisk]

/-- C3: with the emergency flag set, `RiskManager.validate_trade` returns
`(false, d)` where `d` is an error entry whose message mentions the
emergency stop, leaving the manager state untouched; the calculator
delegation and the rest of the body are never reached (the rejection is
returned before the `try` block). -/
theorem manager_validate_trade_emergency_stop
    (s : RiskManager.ManagerState) (trade : RiskCalculator.Trade)
    (h : s.emergency_stop = true) :
    RiskManager.validate_trade s trade
      = ((false, .err "Trading suspended - Emergency stop active"), s)
    ∧ ∃ pre post, "Trading suspended - Emergency stop active"
        = pre ++ "Emergency stop" ++ post := by
  refine ⟨?_, "Trading suspended - ", " active", rfl⟩
  simp [RiskManager.validate_trade, h]

/-- Witness for C3 at a concrete manager state with the flag set. -/
theorem manager_validate_trade_emergency_stop_witness :
    RiskManager.validate_trade managerFixture
        { pair := some "SOL/USDC", size := 1, price := 1 }
      = ((false, .err "Trading suspended - Emergency stop active"),
          managerFixture)
    ∧ ∃ pre post, "Trading suspended - Emergency stop active"
        = pre ++ "Emergency stop" ++ post :=
  manager_validate_trade_emergency_stop managerFixture
    { pair := some "SOL/USDC", size := 1, price := 1 } rfl

/-- C4: `emergency_shutdown` is idempotent and fail-safe.  It is a total
function (the method catches its internal failure and returns normally, so
it never raises); after one call and after two calls - with any trigger
events - the flag is set, the second call changes nothing beyond
re-logging, and a call on an already-stopped state returns `false` (the
body fails on the missing `_cancel_all_orders`) while the flag remains
set. -/
theorem emergency_shutdown_idempotent (s : RiskManager.ManagerState)
    (e1 e2 : String) :
    (RiskManager.emergency_shutdown s e1).2.emergency_stop = true
    ∧ (RiskManager.emergency_shutdown
        (RiskManager.emergency_shutdown s e1).2 e2).2.emergency_stop = true
    ∧ (RiskManager.emergency_shutdown
        (RiskManager.emergency_shutdown s e1).2 e2).2
      = (RiskManager.emergency_shutdown s e1).2
    ∧ (RiskManager.emergency_shutdown
        { s with emergency_stop := true } e1).1 = false
    ∧ (RiskManager.emergency_shutdown
        { s with emergency_stop := true } e1).2.emergency_stop = true :=
  ⟨rfl, rfl, rfl, rfl, rfl⟩

/-- C5 (code bug): no call of `execute_opportunity` updates the execution
statistics.  Every call fails `validate_execution` (whose portfolio-risk
gate is always false) and takes the early return, which skips
`_update_execution_stats`; the executor state - statistics included - is
returned unchanged, so `total_executions` never increases, contradicting
the exactly-once update the claim states. -/
theorem execute_opportunity_never_updates_stats
    (s : ArbitrageExecutor.ExecutorState)
    (opp : ArbitrageExecutor.Opportunity) (t : ℚ) :
    (ArbitrageExecutor.execute_opportunity s opp t).2 = s := by
  unfold ArbitrageExecutor.execute_opportunity
  have h := validate_execution_always_false s.market_data opp
  simp [h]

/-- C6 (code bug): `rebalance_grid` can never succeed - every call returns
an error (and bumps the failure counter), because the body looks up the
undefined method `_get_market_data` (or finds no grid) and re-raises - and
the level builder it would use creates `grid_levels + 1` levels, one more
than the newly computed `grid_levels` parameter. -/
theorem rebalance_grid_divergence :
    (∀ (s : GridStrategy.GridMgrState) (pair : String) (price : ℚ),
      ∃ msg, (GridStrategy.rebalance_grid s pair price).1 = .error msg)
    ∧ (∀ (params : GridStrategy.GridParams) (price : ℚ),
        (GridStrategy.initialize_grid_levels params price).length
          = params.grid_levels + 1) := by
  constructor
  · intro s pair price
    exact ⟨_, rfl⟩
  · intro params price
    unfold GridStrategy.initialize_grid_levels
    rw [List.length_map, levelIndices_length]

/-- Helper: the exact value of the price difference for the spec scenario
prices 100 and 100.5: the formula gives 20000/401 = 49.8753... basis
points, which rounds to 49.88. -/
theorem price_difference_100_1005_eval :
    ArbitrageDetector.calculate_price_difference 100 (201/2)
      = .ok (1247/25) := by
  unfold ArbitrageDetector.calculate_price_difference
  rw [if_neg (by norm_num)]
  have habs : |(201/2 : ℚ) - 100| = 1/2 := by norm_num
  have hf : (⌊((1/2 : ℚ) / ((100 + 201/2)/2) * 10000 * 100)⌋ : ℤ) = 4987 := by
    norm_num [Int.floor_eq_iff]
  simp only [habs, round2, roundHalfEven, hf]
  norm_num

/-- C7 counterexample: with a matching market row and a non-empty ask book,
a zero (non-positive) trade size makes `_calculate_slippage` return `0.0`,
not the `float('inf')` the claim states for non-positive sizes. -/
theorem calculate_slippage_zero_size_counterexample :
    ArbitrageExecutor.calculate_slippage [rowFixture] "orca" "SOL/USDC"
        (some 0) = .finite 0
    ∧ ArbitrageExecutor.SlipVal.finite 0 ≠ ArbitrageExecutor.SlipVal.posInf :=
  ⟨rfl, by simp⟩

/-- C7 (amended): `_calculate_slippage` returns `float('inf')` when no
market row matches the buy venue and pair (and on the malformed-book
exception paths), returns `0.0` when the trade size is non-positive, and
otherwise returns the weighted execution price
`sum(price_i * min(size, cumvol_i)) / size` over the ask levels versus the
best ask, in basis points. -/
theorem calculate_slippage_branches (md : List ArbitrageExecutor.MarketRow)
    (dexb pr : String) (size : Option ℚ) :
    (ArbitrageExecutor.firstRow md dexb pr = none →
      ArbitrageExecutor.calculate_slippage md dexb pr size = .posInf)
    ∧ (∀ r, ArbitrageExecutor.firstRow md dexb pr = some r →
        size.getD 0 ≤ 0 →
        ArbitrageExecutor.calculate_slippage md dexb pr size = .finite 0)
    ∧ (∀ r p0 s0 rest, ArbitrageExecutor.firstRow md dexb pr = some r →
        r.ob.asks = (p0, s0) :: rest → 0 < size.getD 0 → p0 ≠ 0 →
        ArbitrageExecutor.calculate_slippage md dexb pr size
          = .finite (((List.zipWith (fun p c => p * min (size.getD 0) c)
                (((p0, s0) :: rest).map Prod.fst)
                (cumsumFrom 0 (((p0, s0) :: rest).map Prod.snd))).sum
                  / size.getD 0 - p0) / p0 * 10000)) := by
  refine ⟨?_, ?_, ?_⟩
  · intro h
    unfold ArbitrageExecutor.calculate_slippage
    rw [h]
  · intro r hr hsz
    unfold ArbitrageExecutor.calculate_slippage
    rw [hr]
    simp only [if_pos hsz]
  · intro r p0 s0 rest hr hasks hsz hp0
    unfold ArbitrageExecutor.calculate_slippage
    rw [hr]
    simp only [not_le.mpr hsz, if_neg, hasks, if_neg hp0]
    simp [not_le.mpr hsz]

/-- Witness for C7 at concrete inputs: an empty frame gives infinity, a
missing size key (read as 0) gives 0.0, and a positive size on a two-level
book gives the finite weighted-price slippage, here 5200 bps. -/
theorem calculate_slippage_branches_witness :
    ArbitrageExecutor.calculate_slippage [] "orca" "SOL/USDC" (some 1)
        = .posInf
    ∧ ArbitrageExecutor.calculate_slippage [rowFixture] "orca" "SOL/USDC" none
        = .finite 0
    ∧ ArbitrageExecutor.calculate_slippage [row2Fixture] "orca" "SOL/USDC"
        (some 2) = .finite 5200 := by
  refine ⟨(calculate_slippage_branches [] "orca" "SOL/USDC" (some 1)).1 rfl,
    (calculate_slippage_branches [rowFixture] "orca" "SOL/USDC" none).2.1
      rowFixture rfl (by norm_num), ?_⟩
  have h := (calculate_slippage_branches [row2Fixture] "orca" "SOL/USDC"
    (some 2)).2.2 row2Fixture 100 1 [(102, 9)] rfl rfl (by norm_num)
    (by norm_num)
  rw [h]
  norm_num [cumsumFrom]

/-- C8 counterexample: `calculate_price_difference(100, 100.5)` returns
49.88 basis points, not approximately 49.75: the distance to the claimed
value is 0.13, more than a tenth of a basis point, so the claim's value
(and its arithmetic `|0.5|/100.25*10000 = 49.75`) is wrong. -/
theorem price_difference_scenario_counterexample :
    ArbitrageDetector.calculate_price_difference 100 (201/2) = .ok (1247/25)
    ∧ ¬(|(1247/25 : ℚ) - 199/4| < 1/10) :=
  ⟨price_difference_100_1005_eval, by
    rw [show (1247/25 : ℚ) - 199/4 = 13/100 from by norm_num,
      abs_of_nonneg (by norm_num : (0:ℚ) ≤ 13/100)]
    norm_num⟩

/-- C8 (amended): `calculate_price_difference(100, 100.5)` returns exactly
49.88 basis points, the 2-decimal rounding of
`|100 - 100.5| / mean(100, 100.5) * 10000 = 49.8753...`. -/
theorem price_difference_scenario_value :
    ArbitrageDetector.calculate_price_difference 100 (201/2)
      = .ok (1247/25) :=
  price_difference_100_1005_eval

/-- C9: for every pair of strictly positive prices,
`calculate_price_difference` is symmetric in its two arguments. -/
theorem price_difference_symmetric (a b : ℚ) (ha : 0 < a) (hb : 0 < b) :
    ArbitrageDetector.calculate_price_difference a b
      = ArbitrageDetector.calculate_price_difference b a := by
  unfold ArbitrageDetector.calculate_price_difference
  rw [if_neg (by push_neg; exact ⟨ha, hb⟩), if_neg (by push_neg; exact ⟨hb, ha⟩)]
  rw [abs_sub_comm, add_comm b a]

/-- Witness for C9 at the positive prices 2 and 3. -/
theorem price_difference_symmetric_witness :
    (0 : ℚ) < 2 ∧ (0 : ℚ) < 3
    ∧ ArbitrageDetector.calculate_price_difference 2 3
      = ArbitrageDetector.calculate_price_difference 3 2 :=
  ⟨by norm_num, by norm_num,
    price_difference_symmetric 2 3 (by norm_num) (by norm_num)⟩

/-- C10 counterexample: with the spike history fixture and current
volatility 55, the updated history has mean 19.5, the factor is
`11 * 19.5 / 55 = 3.9`, and the code computes `int(np.clip(3.9, 3, 20)) =
3` while the claim's `clamp(round(3.9), 3, 20)` is 4: the code truncates
instead of rounding. -/
theorem grid_levels_truncation_counterexample :
    GridCalculator.grid_levels_calc priorFixture 55 = .ok 3
    ∧ (GridCalculator.historyAfter priorFixture 55).sum
        / ((GridCalculator.historyAfter priorFixture 55).length : ℚ) = 39/2
    ∧ GridCalculator.spec_grid_levels (39/2) 55 = 4
    ∧ ((3 : ℤ) ≠ 4) := by
  have hhist : GridCalculator.historyAfter priorFixture 55
      = List.replicate 22 0 ++ [413, 55] := by
    simp [GridCalculator.historyAfter, priorFixture, List.replicate_succ]
  have hsum : (GridCalculator.historyAfter priorFixture 55).sum = 468 := by
    rw [hhist]
    simp [List.sum_replicate]
    norm_num
  have hlen : ((GridCalculator.historyAfter priorFixture 55).length : ℚ)
      = 24 := by
    rw [hhist]
    simp
  refine ⟨?_, ?_, ?_, by norm_num⟩
  · unfold GridCalculator.grid_levels_calc
    rw [if_neg (by norm_num)]
    rw [hsum, hlen]
    show Except.ok (pyInt (npClip (11 * ((468 : ℚ) / 24 / 55)) 3 20))
      = Except.ok 3
    have hv : ((11 : ℚ) * (468 / 24 / 55)) = 39/10 := by norm_num
    rw [hv]
    have hclip : npClip (39/10) 3 20 = 39/10 := by
      unfold npClip
      rw [max_eq_right (by norm_num), min_eq_right (by norm_num)]
    rw [hclip]
    unfold pyInt
    rw [if_pos (by norm_num)]
    norm_num [Int.floor_eq_iff]
  · rw [hsum, hlen]
    norm_num
  · unfold GridCalculator.spec_grid_levels
    have hv : ((11 : ℚ) * (39/2/55)) = 39/10 := by norm_num
    rw [hv]
    have hr : round ((39:ℚ)/10) = 4 := by
      rw [round_eq]
      norm_num [Int.floor_eq_iff]
    rw [hr]
    norm_num

/-- C10 (amended): the grid-level computation equals clip-then-truncate,
`int(np.clip(11 * (mean(updated history) / current_vol), 3, 20))`, and -
holding the prior volatility history fixed, with its non-negative entries -
it is antitone in the current volatility and stays within [3, 20]: a lower
current volatility yields at least as many grid levels. -/
theorem grid_levels_antitone (prior : List ℚ) (v1 v2 : ℚ)
    (hS : 0 ≤ (prior.drop 1).sum) (h1 : 0 < v1) (h12 : v1 ≤ v2) :
    ∃ l1 l2 : ℤ,
      GridCalculator.grid_levels_calc prior v1 = .ok l1
      ∧ GridCalculator.grid_levels_calc prior v2 = .ok l2
      ∧ l2 ≤ l1 ∧ 3 ≤ l2 ∧ l1 ≤ 20 := by
  have h2 : 0 < v2 := lt_of_lt_of_le h1 h12
  set S := (prior.drop 1).sum with hSdef
  set L := (prior.drop 1).length + 1 with hLdef
  have hLpos : (0:ℚ) < (L : ℚ) := by
    rw [hLdef]
    positivity
  have heval : ∀ v : ℚ, v ≠ 0 → GridCalculator.grid_levels_calc prior v
      = .ok (pyInt (npClip (11 * ((S + v) / (L:ℚ) / v)) 3 20)) := by
    intro v hv
    unfold GridCalculator.grid_levels_calc
    rw [if_neg hv]
    have hsum : (GridCalculator.historyAfter prior v).sum = S + v := by
      simp [GridCalculator.historyAfter, hSdef]
    have hlen : ((GridCalculator.historyAfter prior v).length : ℚ)
        = (L : ℚ) := by
      simp [GridCalculator.historyAfter, hLdef]
    rw [hsum, hlen]
  have key : 11 * ((S + v2) / (L:ℚ) / v2) ≤ 11 * ((S + v1) / (L:ℚ) / v1) := by
    rw [div_div, div_div]
    apply mul_le_mul_of_nonneg_left _ (by norm_num)
    rw [div_le_div_iff₀ (by positivity) (by positivity)]
    nlinarith [mul_le_mul_of_nonneg_left h12 hS, hLpos]
  set c1 := npClip (11 * ((S + v1) / (L:ℚ) / v1)) 3 20 with hc1
  set c2 := npClip (11 * ((S + v2) / (L:ℚ) / v2)) 3 20 with hc2
  have hclip : c2 ≤ c1 := min_le_min le_rfl (max_le_max le_rfl key)
  have h3a : (3:ℚ) ≤ c1 := le_min (by norm_num) (le_max_left 3 _)
  have h3b : (3:ℚ) ≤ c2 := le_min (by norm_num) (le_max_left 3 _)
  have h20a : c1 ≤ 20 := min_le_left _ _
  have hpy1 : pyInt c1 = ⌊c1⌋ := if_pos (le_trans (by norm_num) h3a)
  have hpy2 : pyInt c2 = ⌊c2⌋ := if_pos (le_trans (by norm_num) h3b)
  refine ⟨pyInt c1, pyInt c2, heval v1 h1.ne', heval v2 h2.ne', ?_, ?_, ?_⟩
  · rw [hpy1, hpy2]
    exact Int.floor_le_floor hclip
  · rw [hpy2]
    exact Int.le_floor.mpr (by exact_mod_cast h3b)
  · rw [hpy1]
    have hfl : (⌊c1⌋ : ℚ) ≤ 20 := le_trans (Int.floor_le c1) h20a
    exact_mod_cast hfl

/-- Witness for C10 at a one-entry history and volatilities 1 and 2. -/
theorem grid_levels_antitone_witness :
    ∃ l1 l2 : ℤ,
      GridCalculator.grid_levels_calc [1] 1 = .ok l1
      ∧ GridCalculator.grid_levels_calc [1] 2 = .ok l2
      ∧ l2 ≤ l1 ∧ 3 ≤ l2 ∧ l1 ≤ 20 :=
  grid_levels_antitone [1] 1 2 (by simp) (by norm_num) (by norm_num)
